import Mathlib

/-!
Shallow embedding of `hw/char/oxpcie-serial.c` (QEMU oxpcie-serial
multi-UART PCI device) and verification of its specification claims.

The device aggregates two 16550A serial sub-devices behind one PCI
function: one 16 KiB MMIO bar (`mmiobar`) holding both 8-byte register
windows, one interrupt line driven by a level-OR multiplexer over the
per-port `level[]` array, a realize/exit lifecycle with rollback, and a
versioned vmstate description for save/restore.

C state is modelled with explicit records; machine integers are `Nat`;
the guest-visible interrupt line is a `Bool`.  Heap resources (the irq
array, irq source objects, names, subregions) are tracked explicitly so
that allocation/release claims can be stated.
-/

/-- The slice of the generic `PCIDevice` sub-object that this file's code
touches: `config[PCI_CLASS_PROG]`, `config[PCI_INTERRUPT_PIN]`, and the
level currently driven on the function's interrupt line via
`pci_set_irq`.  `VMSTATE_PCI_DEVICE` snapshots and restores this whole
sub-object opaquely. -/
structure PCIDev where
  classProg : Nat
  interruptPin : Nat
  intLine : Bool
  deriving DecidableEq, Repr

/-- One `SerialMM` element of `pci->serial[2]` together with the wiring
state the parent manages for it: whether `qdev_realize` succeeded
(`realized`), which irq index was assigned to `s->irq` (`irqWired`),
the size given to `memory_region_init_io` (`ioSize`), the offset at
which `memory_region_add_subregion` mapped `s->io` into `mmiobar`
(`mapped`, `none` when unmapped), and the sub-device's own internal
UART state, opaque to this layer (`content`). -/
structure SerialPort where
  realized : Bool
  irqWired : Option Nat
  ioSize : Option Nat
  mapped : Option Nat
  content : Nat
  deriving DecidableEq, Repr

/-- A freshly object-initialized `SerialMM` slot (zeroed, child created
but not realized). -/
def SerialPort.init : SerialPort :=
  { realized := false, irqWired := none, ioSize := none, mapped := none, content := 0 }

instance : Inhabited SerialPort := ⟨SerialPort.init⟩

/-- `PCIOxpcieSerialState`: the aggregate device state.

* `dev` — the generic PCI function sub-object;
* `mmiobar` — `some size` once `memory_region_init` ran;
* `ports` — `pci->ports`, the count of fully-wired ports;
* `name` — `pci->name[2]`, `some label` while the `g_strdup_printf`
  string is live, `none` after `g_free` (or before allocation);
* `serial` — `pci->serial[2]`;
* `level` — `pci->level[2]`, the per-port interrupt levels (uint32);
* `irqArray` — `some n` while the array returned by
  `qemu_allocate_irqs` is live with `n` slots, `none` after
  `qemu_free_irqs` freed it (or before allocation);
* `liveIrqSources` — how many individual irq source objects are
  currently allocated (allocation creates them, `qemu_free_irqs s n`
  destroys exactly `n` of them);
* `progIf` — the `prog_if` qdev property. -/
structure MultiSerialState where
  dev : PCIDev
  mmiobar : Option Nat
  ports : Nat
  name : List (Option String)
  serial : List SerialPort
  level : List Nat
  irqArray : Option Nat
  liveIrqSources : Nat
  progIf : Nat
  deriving DecidableEq, Repr

/-- A freshly instantiated, not yet realized device: qdev instance data
is zero-initialized, both serial children are object-initialized by
`multi_serial_init`, and the `prog_if` property carries its default
`0x02` from `multi_2x_serial_pci_properties`. -/
def initState : MultiSerialState :=
  { dev := { classProg := 0, interruptPin := 0, intLine := false }
    mmiobar := none
    ports := 0
    name := [none, none]
    serial := [SerialPort.init, SerialPort.init]
    level := [0, 0]
    irqArray := none
    liveIrqSources := 0
    progIf := 0x02 }

/-- `multi_serial_irq_mux(opaque, n, level)`: store the new level into
`pci->level[n]`, then recompute `pending` as the OR of `pci->level[i]`
over `i < pci->ports` and drive the PCI interrupt line with it via
`pci_set_irq`. -/
def multi_serial_irq_mux (pci : MultiSerialState) (n : Nat) (lvl : Nat) : MultiSerialState :=
  let level := pci.level.set n lvl
  let pending := (List.range pci.ports).any (fun i => level.getD i 0 != 0)
  { pci with level := level, dev := { pci.dev with intLine := pending } }

/-- The body of the teardown loop of `multi_serial_pci_exit` for one
index `i`: `qdev_unrealize` the sub-device, `memory_region_del_subregion`
its io region from `mmiobar`, and `g_free` its name. -/
def exitPort (s : MultiSerialState) (i : Nat) : MultiSerialState :=
  { s with
    serial := s.serial.set i
      { (s.serial.getD i default) with realized := false, mapped := none }
    name := s.name.set i none }

/-- `multi_serial_pci_exit(dev)`: run the teardown loop for
`i = 0 .. pci->ports - 1`, then `qemu_free_irqs(pci->irqs, pci->ports)`,
which destroys exactly `pci->ports` irq source objects and frees the
array itself.  Note the function does not reset `pci->ports`. -/
def multi_serial_pci_exit (s : MultiSerialState) : MultiSerialState :=
  let s1 := (List.range s.ports).foldl exitPort s
  { s1 with irqArray := none, liveIrqSources := s1.liveIrqSources - s.ports }

/-- The successful-iteration body of the realize loop for port `i`
(everything after the `qdev_realize` success check): wire
`s->irq = pci->irqs[i]`, allocate `pci->name[i] = "uart #<i+1>"`,
`memory_region_init_io` the 8-byte io region, map it at
`0x1000 + 0x200*i` inside `mmiobar`, and increment `pci->ports`. -/
def wirePort (s : MultiSerialState) (i : Nat) : MultiSerialState :=
  { s with
    serial := s.serial.set i
      { (s.serial.getD i default) with
        realized := true
        irqWired := some i
        ioSize := some 8
        mapped := some (0x1000 + 0x200 * i) }
    name := s.name.set i (some ("uart #" ++ toString (i + 1)))
    ports := s.ports + 1 }

/-- The realize loop of `multi_serial_pci_realize` over the given list
of port indices.  `ok i` models whether `qdev_realize` succeeds for
sub-device `i`; on failure the function calls `multi_serial_pci_exit`
for rollback and returns with `errp` set (modelled as the `Bool` being
`false`). -/
def realizePorts (ok : Nat → Bool) : List Nat → MultiSerialState → MultiSerialState × Bool
  | [], s => (s, true)
  | i :: rest, s =>
    if ok i then
      realizePorts ok rest (wirePort s i)
    else
      (multi_serial_pci_exit s, false)

/-- `multi_serial_pci_realize(dev, errp)`: set
`config[PCI_CLASS_PROG] = prog_if` and `config[PCI_INTERRUPT_PIN] = 1`,
create the 16384-byte `mmiobar` (registered as BAR 0), allocate
`nports = 2` irq sources feeding `multi_serial_irq_mux`, then run the
realize loop for `i = 0, 1`.  Returns the final state and `true` on
success, `false` when a sub-device failed to realize (after rollback). -/
def multi_serial_pci_realize (ok : Nat → Bool) (s : MultiSerialState) :
    MultiSerialState × Bool :=
  let s := { s with dev := { s.dev with classProg := s.progIf, interruptPin := 0x01 } }
  let s := { s with mmiobar := some 16384 }
  let s := { s with irqArray := some 2, liveIrqSources := s.liveIrqSources + 2 }
  realizePorts ok (List.range 2) s

/-- The kinds of fields appearing in `vmstate_pci_multi_serial.fields`,
in the dialect this device uses: the whole-`PCIDevice` section, a
fixed-arity array of sub-device sections (`VMSTATE_STRUCT_ARRAY` of
`vmstate_serial`), and a fixed-arity `uint32` array
(`VMSTATE_UINT32_ARRAY` of `level`). -/
inductive VMFieldKind where
  | pciDevice
  | structArraySerial (num : Nat)
  | uint32ArrayLevel (num : Nat)
  deriving DecidableEq, Repr

/-- A `VMStateDescription` as this file uses it: name, version ids, the
ordered field list, and the optional post-load hook (this device
registers none). -/
structure VMStateDescription where
  name : String
  version_id : Nat
  minimum_version_id : Nat
  fields : List VMFieldKind
  post_load : Option (MultiSerialState → MultiSerialState)

/-- `vmstate_pci_multi_serial`: name `"pci-oxpcie-serial"`, version 1,
minimum version 1, fields `VMSTATE_PCI_DEVICE`,
`VMSTATE_STRUCT_ARRAY(serial, …, 2, …)`, `VMSTATE_UINT32_ARRAY(level, …, 2)`;
no `.post_load` (and no other callback) is set. -/
def vmstate_pci_multi_serial : VMStateDescription :=
  { name := "pci-oxpcie-serial"
    version_id := 1
    minimum_version_id := 1
    fields := [.pciDevice, .structArraySerial 2, .uint32ArrayLevel 2]
    post_load := none }

/-- One serialized section of a snapshot blob: the opaque generic-PCI
section, the ordered list of opaque sub-device state blobs, or the
interrupt-level array. -/
inductive VMSection where
  | pci (d : PCIDev)
  | subdevs (blobs : List Nat)
  | levels (xs : List Nat)
  deriving DecidableEq, Repr

/-- A snapshot blob: the version tag, the minimum-compatible-version
tag, and the ordered sections. -/
structure SnapshotBlob where
  version : Nat
  minVersion : Nat
  sections : List VMSection
  deriving DecidableEq, Repr

/-- Errors of the restore engine. -/
inductive RestoreError where
  | unsupportedVersion (v : Nat)
  | subdevCountMismatch (found : Nat)
  | levelCountMismatch (found : Nat)
  | sectionMismatch
  deriving DecidableEq, Repr

/-- Serialize one field of the description from the device state.
`VMSTATE_PCI_DEVICE` captures the generic PCI sub-object opaquely; the
serial struct array captures, in port order, each sub-device's own
opaque state blob; the uint32 array captures the declared number of
`level` entries. -/
def saveField (s : MultiSerialState) : VMFieldKind → VMSection
  | .pciDevice => .pci s.dev
  | .structArraySerial num => .subdevs ((s.serial.take num).map SerialPort.content)
  | .uint32ArrayLevel num => .levels (s.level.take num)

/-- Modelled from the spec: the generic vmstate save engine (QEMU's
`vmstate_save_state`, not part of this repository's sources) walks the
description's field list in declared order, emitting one section per
field, and stamps the blob with the description's version tags. -/
def vmstate_save (d : VMStateDescription) (s : MultiSerialState) : SnapshotBlob :=
  { version := d.version_id
    minVersion := d.minimum_version_id
    sections := d.fields.map (saveField s) }

/-- Restore the sub-device blobs into the serial array in port order:
each sub-device's own restore replaces its opaque internal state. -/
def restoreSubdevs : List SerialPort → List Nat → List SerialPort
  | ps, [] => ps
  | [], _ => []
  | p :: ps, b :: bs => { p with content := b } :: restoreSubdevs ps bs

/-- Apply one field of the description to one section of the blob.  A
field of declared arity `num` accepts only a section carrying exactly
`num` elements; a count mismatch is a restore failure (the sub-device
count embedded in the blob must equal the description's fixed 2). -/
def loadField (s : MultiSerialState) : VMFieldKind → VMSection → Except RestoreError MultiSerialState
  | .pciDevice, .pci d => .ok { s with dev := d }
  | .structArraySerial num, .subdevs blobs =>
    if blobs.length = num then
      .ok { s with serial := restoreSubdevs s.serial blobs }
    else
      .error (.subdevCountMismatch blobs.length)
  | .uint32ArrayLevel num, .levels xs =>
    if xs.length = num then
      .ok { s with level := xs }
    else
      .error (.levelCountMismatch xs.length)
  | _, _ => .error .sectionMismatch

/-- Apply the description's fields, in declared order, to the blob's
sections; any field failure fails the whole restore. -/
def loadFields : List VMFieldKind → List VMSection → MultiSerialState →
    Except RestoreError MultiSerialState
  | [], [], s => .ok s
  | f :: fs, sec :: secs, s =>
    match loadField s f sec with
    | .ok s1 => loadFields fs secs s1
    | .error e => .error e
  | _, _, _ => .error .sectionMismatch

/-- How many times a successful restore re-runs a whole-array
recomputation registered by the description: once per registered
post-load hook, i.e. `1` when `post_load` is set and `0` when it is
not. -/
def restoreRecomputations (d : VMStateDescription) : Nat :=
  match d.post_load with
  | some _ => 1
  | none => 0

/-- Modelled from the spec: the generic vmstate load engine (QEMU's
`vmstate_load_state`, not part of this repository's sources) rejects a
blob whose version is above the reader's `version_id` or below its
`minimum_version_id`, otherwise applies the description's fields in
declared order to the sections and finally runs the description's
post-load hook if one is registered; a failed restore yields an error
and is never presented as a successfully restored controller. -/
def vmstate_load (d : VMStateDescription) (b : SnapshotBlob) (s : MultiSerialState) :
    Except RestoreError MultiSerialState :=
  if d.version_id < b.version ∨ b.version < d.minimum_version_id then
    .error (.unsupportedVersion b.version)
  else
    match loadFields d.fields b.sections s with
    | .ok s1 =>
      match d.post_load with
      | some f => .ok (f s1)
      | none => .ok s1
    | .error e => .error e

/-- `List.any` only depends on the predicate's values on the members. -/
theorem anyCongr {α : Type} {f g : α → Bool} :
    ∀ (l : List α), (∀ x ∈ l, f x = g x) → l.any f = l.any g
  | [], _ => rfl
  | x :: xs, h => by
    rw [List.any_cons, List.any_cons, h x (by simp),
      anyCongr xs (fun y hy => h y (by simp [hy]))]

/-- A whole sequence of `multi_serial_irq_mux` calls, applied in order:
each pair carries the line index and the new level. -/
def muxCalls (s : MultiSerialState) (cs : List (Nat × Nat)) : MultiSerialState :=
  cs.foldl (fun st c => multi_serial_irq_mux st c.1 c.2) s

/-! ## Helper lemmas -/

/-- Reading a `set` list away from the written index is unchanged. -/
theorem getD_set_ne {α : Type} (l : List α) (n j : Nat) (v d : α) (h : j ≠ n) :
    (l.set n v).getD j d = l.getD j d := by
  simp [List.getD_eq_getElem?_getD, List.getElem?_set_ne (Ne.symm h)]

/-- Reading a `set` list at the written index yields the written value
when the index is in bounds. -/
theorem getD_set_self {α : Type} (l : List α) (n : Nat) (v d : α) (h : n < l.length) :
    (l.set n v).getD n d = v := by
  simp [List.getD_eq_getElem?_getD, List.getElem?_set_self, h]

/-- `multi_serial_irq_mux` leaves `ports` unchanged. -/
theorem mux_ports (s : MultiSerialState) (n lvl : Nat) :
    (multi_serial_irq_mux s n lvl).ports = s.ports := rfl

/-- A sequence of mux calls leaves `ports` unchanged. -/
theorem muxCalls_ports (cs : List (Nat × Nat)) (s : MultiSerialState) :
    (muxCalls s cs).ports = s.ports := by
  induction cs generalizing s with
  | nil => rfl
  | cons c cs ih => simpa [muxCalls] using ih (multi_serial_irq_mux s c.1 c.2)

/-- On a state with `ports = 2`, one mux call drives the line with the
OR of the two stored levels (of the post-call state). -/
theorem mux_line_or_two (s : MultiSerialState) (n lvl : Nat) (hp : s.ports = 2) :
    (multi_serial_irq_mux s n lvl).dev.intLine =
      (((multi_serial_irq_mux s n lvl).level.getD 0 0 != 0) ||
        ((multi_serial_irq_mux s n lvl).level.getD 1 0 != 0)) := by
  simp [multi_serial_irq_mux, hp, List.range_succ]

/-! ## Claim theorems: interrupt multiplexer -/

/-- C1: after every call to the interrupt multiplexer entry point
`multi_serial_irq_mux` on a fully activated two-port controller
(`ports = 2`), the physical interrupt line equals the logical OR of the
two stored per-port levels: for every sequence of `OnLevelChange`
calls, immediately after each call (here: after the last call of an
arbitrary sequence, hence after every call by instantiating the prefix)
`intLine = (level[0] ≠ 0 OR level[1] ≠ 0)`. -/
theorem C1_line_is_or_of_levels (s : MultiSerialState) (cs : List (Nat × Nat))
    (n lvl : Nat) (hp : s.ports = 2) :
    (muxCalls s (cs ++ [(n, lvl)])).dev.intLine =
      (((muxCalls s (cs ++ [(n, lvl)])).level.getD 0 0 != 0) ||
        ((muxCalls s (cs ++ [(n, lvl)])).level.getD 1 0 != 0)) := by
  have happ : muxCalls s (cs ++ [(n, lvl)]) = multi_serial_irq_mux (muxCalls s cs) n lvl := by
    simp [muxCalls, List.foldl_append]
  have h2 : (muxCalls s cs).ports = 2 := by rw [muxCalls_ports]; exact hp
  rw [happ]
  exact mux_line_or_two _ n lvl h2

theorem C1_line_is_or_of_levels_witness :
    (muxCalls { initState with ports := 2 } ([(0, 1)] ++ [(1, 0)])).dev.intLine =
      (((muxCalls { initState with ports := 2 } ([(0, 1)] ++ [(1, 0)])).level.getD 0 0 != 0) ||
        ((muxCalls { initState with ports := 2 } ([(0, 1)] ++ [(1, 0)])).level.getD 1 0 != 0)) :=
  C1_line_is_or_of_levels { initState with ports := 2 } [(0, 1)] 1 0 rfl

/-- C9: a call `multi_serial_irq_mux s n lvl` may change only entry `n`
of `level`: every entry at an index `j ≠ n` is unchanged, and so are
`ports`, the per-port labels, the sub-device handles, and the
class-code byte. -/
theorem C9_mux_frame (s : MultiSerialState) (n lvl j : Nat) (hj : j ≠ n) :
    (multi_serial_irq_mux s n lvl).level.getD j 0 = s.level.getD j 0 ∧
    (multi_serial_irq_mux s n lvl).ports = s.ports ∧
    (multi_serial_irq_mux s n lvl).name = s.name ∧
    (multi_serial_irq_mux s n lvl).serial = s.serial ∧
    (multi_serial_irq_mux s n lvl).dev.classProg = s.dev.classProg :=
  ⟨getD_set_ne s.level n j lvl 0 hj, rfl, rfl, rfl, rfl⟩

theorem C9_mux_frame_witness :
    (multi_serial_irq_mux initState 1 5).level.getD 0 0 = initState.level.getD 0 0 ∧
    (multi_serial_irq_mux initState 1 5).ports = initState.ports ∧
    (multi_serial_irq_mux initState 1 5).name = initState.name ∧
    (multi_serial_irq_mux initState 1 5).serial = initState.serial ∧
    (multi_serial_irq_mux initState 1 5).dev.classProg = initState.dev.classProg :=
  C9_mux_frame initState 1 5 0 (by decide)

/-- C10: a mux call with line index `n ≥ ports` (possible for a port
whose interrupt output is wired before `ports` is incremented) still
stores the level into `level[n]`, but the driven line is recomputed
only over indices `0 .. ports`, whose entries the call did not change —
the second conjunct equates the new line with the OR of the *old*
levels below `ports`, so an asserting call cannot by itself assert the
line; and once `ports` has grown past `n`, a subsequent recomputation
(third conjunct) does see the stored level and asserts the line. -/
theorem C10_mux_above_port_count (s : MultiSerialState) (n lvl p m w : Nat)
    (hn : s.ports ≤ n) (hlen : n < s.level.length)
    (hp : n < p) (hm : m ≠ n) (hlvl : lvl ≠ 0) :
    ((multi_serial_irq_mux s n lvl).level.getD n 0 = lvl) ∧
    ((multi_serial_irq_mux s n lvl).dev.intLine =
      (List.range s.ports).any (fun i => s.level.getD i 0 != 0)) ∧
    ((multi_serial_irq_mux
        { (multi_serial_irq_mux s n lvl) with ports := p } m w).dev.intLine = true) := by
  refine ⟨getD_set_self s.level n lvl 0 hlen, ?_, ?_⟩
  · show (List.range s.ports).any (fun i => (s.level.set n lvl).getD i 0 != 0) = _
    have hcong : ∀ i ∈ List.range s.ports,
        ((s.level.set n lvl).getD i 0 != 0) = (s.level.getD i 0 != 0) := by
      intro i hi
      have hin : i ≠ n := by
        have := List.mem_range.mp hi
        omega
      rw [getD_set_ne s.level n i lvl 0 hin]
    exact anyCongr (List.range s.ports) hcong
  · show (List.range p).any
        (fun i => (((s.level.set n lvl).set m w).getD i 0 != 0)) = true
    refine List.any_eq_true.mpr ⟨n, List.mem_range.mpr hp, ?_⟩
    have h1 : ((s.level.set n lvl).set m w).getD n 0 = (s.level.set n lvl).getD n 0 :=
      getD_set_ne _ m n w 0 (Ne.symm hm)
    have h2 : (s.level.set n lvl).getD n 0 = lvl := getD_set_self s.level n lvl 0 hlen
    rw [h1, h2]
    simpa using hlvl

theorem C10_mux_above_port_count_witness :
    ((multi_serial_irq_mux { initState with ports := 1 } 1 7).level.getD 1 0 = 7) ∧
    ((multi_serial_irq_mux { initState with ports := 1 } 1 7).dev.intLine =
      (List.range ({ initState with ports := 1 } : MultiSerialState).ports).any
        (fun i => ({ initState with ports := 1 } : MultiSerialState).level.getD i 0 != 0)) ∧
    ((multi_serial_irq_mux
        { (multi_serial_irq_mux { initState with ports := 1 } 1 7) with ports := 2 }
        0 0).dev.intLine = true) :=
  C10_mux_above_port_count { initState with ports := 1 } 1 7 2 0 0
    (by decide) (by decide) (by decide) (by decide) (by decide)

/-! ## Claim theorems: activation -/

/-- C3: when `multi_serial_pci_realize` succeeds for both sub-devices
(the realize oracle accepts ports 0 and 1), the call reports success,
`ports = 2`, the register window is the 16384-byte `mmiobar`, and each
port `i`'s 8-byte io region is mapped at offset `0x1000 + 0x200*i`,
i.e. exactly `0x1000` and `0x1200`; the two 8-byte slots do not overlap
(`0x1000 + 8 ≤ 0x1200`) and both lie inside the 16 KiB window. -/
theorem C3_realize_success_layout (ok : Nat → Bool) (h0 : ok 0 = true) (h1 : ok 1 = true) :
    (multi_serial_pci_realize ok initState).2 = true ∧
    (multi_serial_pci_realize ok initState).1.ports = 2 ∧
    (multi_serial_pci_realize ok initState).1.mmiobar = some 16384 ∧
    ((multi_serial_pci_realize ok initState).1.serial.getD 0 default).mapped = some 0x1000 ∧
    ((multi_serial_pci_realize ok initState).1.serial.getD 1 default).mapped = some 0x1200 ∧
    ((multi_serial_pci_realize ok initState).1.serial.getD 0 default).ioSize = some 8 ∧
    ((multi_serial_pci_realize ok initState).1.serial.getD 1 default).ioSize = some 8 ∧
    0x1000 + 8 ≤ 0x1200 ∧ 0x1200 + 8 ≤ 16384 := by
  have heq : multi_serial_pci_realize ok initState =
      multi_serial_pci_realize (fun _ => true) initState := by
    simp [multi_serial_pci_realize, realizePorts, List.range_succ, h0, h1]
  rw [heq]
  decide

theorem C3_realize_success_layout_witness :
    (multi_serial_pci_realize (fun _ => true) initState).2 = true ∧
    (multi_serial_pci_realize (fun _ => true) initState).1.ports = 2 ∧
    (multi_serial_pci_realize (fun _ => true) initState).1.mmiobar = some 16384 ∧
    ((multi_serial_pci_realize (fun _ => true) initState).1.serial.getD 0 default).mapped =
      some 0x1000 ∧
    ((multi_serial_pci_realize (fun _ => true) initState).1.serial.getD 1 default).mapped =
      some 0x1200 ∧
    ((multi_serial_pci_realize (fun _ => true) initState).1.serial.getD 0 default).ioSize =
      some 8 ∧
    ((multi_serial_pci_realize (fun _ => true) initState).1.serial.getD 1 default).ioSize =
      some 8 ∧
    0x1000 + 8 ≤ 0x1200 ∧ 0x1200 + 8 ≤ 16384 :=
  C3_realize_success_layout (fun _ => true) rfl rfl

/-- C8: during a successful activation the label assigned to sub-device
`i` is exactly the string `"uart #<i+1>"` (1-based in the label text,
0-based internally): `"uart #1"` for port 0 and `"uart #2"` for port 1,
stored in the controller-owned `name` array (freed by the controller's
own teardown). -/
theorem C8_realize_labels (ok : Nat → Bool) (h0 : ok 0 = true) (h1 : ok 1 = true) :
    (multi_serial_pci_realize ok initState).1.name =
      [some ("uart #" ++ toString (0 + 1)), some ("uart #" ++ toString (1 + 1))] ∧
    (multi_serial_pci_realize ok initState).1.name =
      [some "uart #1", some "uart #2"] := by
  have heq : multi_serial_pci_realize ok initState =
      multi_serial_pci_realize (fun _ => true) initState := by
    simp [multi_serial_pci_realize, realizePorts, List.range_succ, h0, h1]
  rw [heq]
  constructor <;> decide

theorem C8_realize_labels_witness :
    (multi_serial_pci_realize (fun _ => true) initState).1.name =
      [some ("uart #" ++ toString (0 + 1)), some ("uart #" ++ toString (1 + 1))] ∧
    (multi_serial_pci_realize (fun _ => true) initState).1.name =
      [some "uart #1", some "uart #2"] :=
  C8_realize_labels (fun _ => true) rfl rfl

/-- C2 counterexample: force the second sub-device's `qdev_realize` to
fail (`ok` accepts only port 0) starting from a fresh device.  After
the in-realize rollback, `ports` is `1`, not `0` (nothing resets it),
and one of the two allocated interrupt source objects is still
allocated (`qemu_free_irqs` was called with count `ports = 1`), so the
claimed zero-ports-active state is not restored. -/
theorem C2_rollback_counterexample :
    (multi_serial_pci_realize (fun i => decide (i = 0)) initState).1.ports = 1 ∧
    (multi_serial_pci_realize (fun i => decide (i = 0)) initState).1.liveIrqSources = 1 ∧
    ¬((multi_serial_pci_realize (fun i => decide (i = 0)) initState).1.ports = 0 ∧
      (multi_serial_pci_realize (fun i => decide (i = 0)) initState).1.liveIrqSources = 0) := by
  decide

/-- C2 amended: if the second sub-device fails to activate, the
rollback reports failure, unrealizes the already-activated first
sub-device, unmaps every sub-region from `mmiobar`, frees both name
slots, and frees the irq array — but `ports` is left at `1` (the count
of previously fully-wired ports, never reset to 0) and exactly one
interrupt source object remains allocated, because `qemu_free_irqs` is
called with count `ports = 1` while 2 sources were allocated. -/
theorem C2_rollback_amended (ok : Nat → Bool) (h0 : ok 0 = true) (h1 : ok 1 = false) :
    (multi_serial_pci_realize ok initState).2 = false ∧
    (multi_serial_pci_realize ok initState).1.ports = 1 ∧
    (multi_serial_pci_realize ok initState).1.name = [none, none] ∧
    ((multi_serial_pci_realize ok initState).1.serial.map SerialPort.mapped) = [none, none] ∧
    ((multi_serial_pci_realize ok initState).1.serial.map SerialPort.realized) =
      [false, false] ∧
    (multi_serial_pci_realize ok initState).1.irqArray = none ∧
    (multi_serial_pci_realize ok initState).1.liveIrqSources = 1 := by
  have heq : multi_serial_pci_realize ok initState =
      multi_serial_pci_realize (fun i => decide (i = 0)) initState := by
    simp [multi_serial_pci_realize, realizePorts, List.range_succ, h0, h1]
  rw [heq]
  decide

theorem C2_rollback_amended_witness :
    (multi_serial_pci_realize (fun i => decide (i = 0)) initState).2 = false ∧
    (multi_serial_pci_realize (fun i => decide (i = 0)) initState).1.ports = 1 ∧
    (multi_serial_pci_realize (fun i => decide (i = 0)) initState).1.name = [none, none] ∧
    ((multi_serial_pci_realize (fun i => decide (i = 0)) initState).1.serial.map
      SerialPort.mapped) = [none, none] ∧
    ((multi_serial_pci_realize (fun i => decide (i = 0)) initState).1.serial.map
      SerialPort.realized) = [false, false] ∧
    (multi_serial_pci_realize (fun i => decide (i = 0)) initState).1.irqArray = none ∧
    (multi_serial_pci_realize (fun i => decide (i = 0)) initState).1.liveIrqSources = 1 :=
  C2_rollback_amended (fun i => decide (i = 0)) rfl rfl

/-- C7: `multi_serial_pci_exit` iterates over exactly the first
`ports` ports — the first `ports` entries of `serial` are unrealized
and unmapped and their labels freed, while every entry from index
`ports` on is untouched (expressed by the `take`/`map`/`drop`
decomposition) — and finally frees the irq array together with `ports`
interrupt source objects, which is all of them whenever exactly one
source per active port is allocated (in particular for the normal
teardown of a fully activated controller); it is safe on any
partially-activated state `ports ≤ 2`. -/
theorem C7_exit_iterates_port_count (s : MultiSerialState)
    (hp : s.ports ≤ 2) (hn : s.name.length = 2) (hs : s.serial.length = 2) :
    (multi_serial_pci_exit s).serial =
      (s.serial.take s.ports).map (fun p => { p with realized := false, mapped := none })
        ++ s.serial.drop s.ports ∧
    (multi_serial_pci_exit s).name =
      List.replicate s.ports none ++ s.name.drop s.ports ∧
    (multi_serial_pci_exit s).irqArray = none ∧
    (multi_serial_pci_exit s).liveIrqSources = s.liveIrqSources - s.ports ∧
    (s.liveIrqSources = s.ports → (multi_serial_pci_exit s).liveIrqSources = 0) := by
  obtain ⟨a, b, hab⟩ := List.length_eq_two.mp hs
  obtain ⟨x, y, hxy⟩ := List.length_eq_two.mp hn
  interval_cases hports : s.ports <;>
    simp [multi_serial_pci_exit, exitPort, List.range_succ, hab, hxy, hports, List.getD] <;>
    omega

theorem C7_exit_iterates_port_count_witness :
    (multi_serial_pci_exit (multi_serial_pci_realize (fun _ => true) initState).1).serial =
      ((multi_serial_pci_realize (fun _ => true) initState).1.serial.take
          (multi_serial_pci_realize (fun _ => true) initState).1.ports).map
          (fun p => { p with realized := false, mapped := none })
        ++ (multi_serial_pci_realize (fun _ => true) initState).1.serial.drop
          (multi_serial_pci_realize (fun _ => true) initState).1.ports ∧
    (multi_serial_pci_exit (multi_serial_pci_realize (fun _ => true) initState).1).name =
      List.replicate (multi_serial_pci_realize (fun _ => true) initState).1.ports none
        ++ (multi_serial_pci_realize (fun _ => true) initState).1.name.drop
          (multi_serial_pci_realize (fun _ => true) initState).1.ports ∧
    (multi_serial_pci_exit
      (multi_serial_pci_realize (fun _ => true) initState).1).irqArray = none ∧
    (multi_serial_pci_exit
        (multi_serial_pci_realize (fun _ => true) initState).1).liveIrqSources =
      (multi_serial_pci_realize (fun _ => true) initState).1.liveIrqSources -
        (multi_serial_pci_realize (fun _ => true) initState).1.ports ∧
    ((multi_serial_pci_realize (fun _ => true) initState).1.liveIrqSources =
        (multi_serial_pci_realize (fun _ => true) initState).1.ports →
      (multi_serial_pci_exit
        (multi_serial_pci_realize (fun _ => true) initState).1).liveIrqSources = 0) :=
  C7_exit_iterates_port_count (multi_serial_pci_realize (fun _ => true) initState).1
    (by decide) (by decide) (by decide)

/-! ## Claim theorems: snapshot engine -/

/-- C5: saving serializes the aggregate in the fixed field order of
`vmstate_pci_multi_serial`: (1) the generic PCI function's state,
(2) exactly 2 sub-device state blobs in port order, (3) the 2-entry
`level` array; and the format carries version tag 1 and
minimum-compatible-version tag 1. -/
theorem C5_save_order_and_version (s : MultiSerialState)
    (hs : s.serial.length = 2) (hl : s.level.length = 2) :
    (vmstate_save vmstate_pci_multi_serial s).version = 1 ∧
    (vmstate_save vmstate_pci_multi_serial s).minVersion = 1 ∧
    (vmstate_save vmstate_pci_multi_serial s).sections =
      [.pci s.dev, .subdevs (s.serial.map SerialPort.content), .levels s.level] ∧
    (s.serial.map SerialPort.content).length = 2 ∧ s.level.length = 2 := by
  obtain ⟨a, b, hab⟩ := List.length_eq_two.mp hs
  obtain ⟨u, v, huv⟩ := List.length_eq_two.mp hl
  simp [vmstate_save, vmstate_pci_multi_serial, saveField, hab, huv]

theorem C5_save_order_and_version_witness :
    (vmstate_save vmstate_pci_multi_serial initState).version = 1 ∧
    (vmstate_save vmstate_pci_multi_serial initState).minVersion = 1 ∧
    (vmstate_save vmstate_pci_multi_serial initState).sections =
      [.pci initState.dev, .subdevs (initState.serial.map SerialPort.content),
        .levels initState.level] ∧
    (initState.serial.map SerialPort.content).length = 2 ∧ initState.level.length = 2 :=
  C5_save_order_and_version initState (by decide) (by decide)

/-- C4 counterexample: restoring a blob produced by `Save` from a fully
activated controller succeeds, yet the description registers no
post-load hook, so the multiplexer recomputation is re-run zero times —
not "exactly once" as claimed. -/
theorem C4_no_post_load_recompute_counterexample :
    vmstate_pci_multi_serial.post_load = none ∧
    restoreRecomputations vmstate_pci_multi_serial = 0 ∧
    vmstate_load vmstate_pci_multi_serial
      (vmstate_save vmstate_pci_multi_serial
        (multi_serial_pci_realize (fun _ => true) initState).1)
      (multi_serial_pci_realize (fun _ => true) initState).1 =
      Except.ok (multi_serial_pci_realize (fun _ => true) initState).1 ∧
    ¬restoreRecomputations vmstate_pci_multi_serial = 1 :=
  ⟨rfl, rfl, by rfl, by decide⟩

/-- C4 amended: a successful restore of a version-1 blob replaces the
generic PCI sub-object (including the driven interrupt line) with the
blob's PCI section, restores the sub-device blobs in port order, and
restores `level` as the last section; `vmstate_pci_multi_serial`
registers no post-load hook, so the multiplexer recomputation is re-run
zero times (not once) and the restored line value comes from the PCI
section rather than from the restored `level` array.  No per-entry
toggling occurs at this layer: the line is written only by the PCI
section restore. -/
theorem C4_restore_no_recompute_amended (d0 : PCIDev) (bs ls : List Nat)
    (s : MultiSerialState) (hbs : bs.length = 2) (hls : ls.length = 2) :
    vmstate_load vmstate_pci_multi_serial ⟨1, 1, [.pci d0, .subdevs bs, .levels ls]⟩ s =
      Except.ok { s with dev := d0, serial := restoreSubdevs s.serial bs, level := ls } ∧
    restoreRecomputations vmstate_pci_multi_serial = 0 := by
  simp [vmstate_load, vmstate_pci_multi_serial, loadFields, loadField, hbs, hls,
    restoreRecomputations]

theorem C4_restore_no_recompute_amended_witness :
    vmstate_load vmstate_pci_multi_serial
      ⟨1, 1, [.pci { classProg := 2, interruptPin := 1, intLine := false },
        .subdevs [0, 0], .levels [1, 0]]⟩ initState =
      Except.ok { initState with
        dev := { classProg := 2, interruptPin := 1, intLine := false }
        serial := restoreSubdevs initState.serial [0, 0]
        level := [1, 0] } ∧
    restoreRecomputations vmstate_pci_multi_serial = 0 :=
  C4_restore_no_recompute_amended { classProg := 2, interruptPin := 1, intLine := false }
    [0, 0] [1, 0] initState (by decide) (by decide)

/-- C6: restoring a blob whose embedded sub-device section carries a
count other than the description's fixed 2 (here: 3 blobs) fails with a
restore error, and no restored controller is presented — the result
carries the error, so the target's prior state is what remains. -/
theorem C6_restore_count_mismatch (d0 : PCIDev) (bs ls : List Nat)
    (s : MultiSerialState) (hbs : bs.length = 3) :
    vmstate_load vmstate_pci_multi_serial ⟨1, 1, [.pci d0, .subdevs bs, .levels ls]⟩ s =
      Except.error (.subdevCountMismatch 3) := by
  simp [vmstate_load, vmstate_pci_multi_serial, loadFields, loadField, hbs]

theorem C6_restore_count_mismatch_witness :
    vmstate_load vmstate_pci_multi_serial
      ⟨1, 1, [.pci { classProg := 2, interruptPin := 1, intLine := false },
        .subdevs [7, 8, 9], .levels [0, 0]]⟩ initState =
      Except.error (.subdevCountMismatch 3) :=
  C6_restore_count_mismatch { classProg := 2, interruptPin := 1, intLine := false }
    [7, 8, 9] [0, 0] initState (by decide)
